import Mathlib

/-!
Shallow embedding of the ascendapp internal-operations tracker
(src/app.py and src/create_admin.py).

Rows of the relational store become structures, tables become lists, and
each Flask POST handler becomes a pure function from its form fields and
the acting user to a result (redirect-with-flash, re-render, or a 403
forbidden abort) together with the new database state.  Timestamps
(datetime.utcnow) are passed in as an explicit `now : Nat`; the password
hasher and the date parser are boundary collaborators and are passed in as
function parameters.  Python `.strip()` / `.lower()` are modelled by
`pyStrip` / `pyLower` below.
-/

namespace Ascend

/-- Row of the `users` table (app.py, class User). -/
structure User where
  id : Nat
  name : String
  email : String
  passwordHash : String
  role : String
  active : Bool
  deriving Repr, DecidableEq

/-- Row of the `events` table (app.py, class Event); dates are abstract codes. -/
structure Event where
  id : Nat
  name : String
  date_start : Nat
  date_end : Nat
  location : String
  deriving Repr, DecidableEq

/-- Row of the `sessions` table (app.py, class Session). -/
structure Session where
  id : Nat
  event_id : Nat
  label : String
  date : Nat
  time_block : Option String
  deriving Repr, DecidableEq

/-- Row of the `packages` table (app.py, class Package). -/
structure Package where
  id : Nat
  name : String
  description : String
  deriving Repr, DecidableEq

/-- Row of the `athletes` table (app.py, class Athlete). -/
structure Athlete where
  id : Nat
  name : String
  team : String
  weight_class : String
  notes : String
  deriving Repr, DecidableEq

/-- Row of the `athlete_sessions` table (app.py, class AthleteSession). -/
structure AthleteSession where
  id : Nat
  athlete_id : Nat
  session_id : Nat
  package_id : Nat
  music_link : String
  music_start : String
  music_end : String
  paid : Bool
  notes : String
  deriving Repr, DecidableEq

/-- Row of the `sd_cards` table (app.py, class SdCard). -/
structure SdCard where
  id : Nat
  label : String
  capacity_gb : Option Nat
  status : String
  deriving Repr, DecidableEq

/-- Row of the `sd_card_logs` table (app.py, class SdCardLog). -/
structure SdCardLog where
  id : Nat
  sd_card_id : Nat
  user_id : Nat
  event_id : Option Nat
  session_id : Option Nat
  purpose : String
  checked_out_at : Nat
  returned_at : Option Nat
  deriving Repr, DecidableEq

/-- Row of the `manpower_allocations` table (app.py, class ManpowerAllocation). -/
structure ManpowerAllocation where
  id : Nat
  event_id : Nat
  session_id : Nat
  user_id : Nat
  role : String
  notes : String
  deriving Repr, DecidableEq

/-- Row of the `edit_tasks` table (app.py, class EditTask). -/
structure EditTask where
  id : Nat
  athlete_session_id : Nat
  assigned_to_user_id : Nat
  type : String
  status : String
  deliverable_link : Option String
  updated_at : Nat
  deriving Repr, DecidableEq

/-- The whole relational store, one list per table plus the autoincrement
counter of each table's primary key. -/
structure DB where
  users : List User := []
  events : List Event := []
  sessions : List Session := []
  packages : List Package := []
  athletes : List Athlete := []
  athlete_sessions : List AthleteSession := []
  sd_cards : List SdCard := []
  sd_card_logs : List SdCardLog := []
  manpower_allocations : List ManpowerAllocation := []
  edit_tasks : List EditTask := []
  next_user_id : Nat := 1
  next_event_id : Nat := 1
  next_session_id : Nat := 1
  next_package_id : Nat := 1
  next_athlete_id : Nat := 1
  next_athlete_session_id : Nat := 1
  next_sd_card_id : Nat := 1
  next_log_id : Nat := 1
  next_allocation_id : Nat := 1
  next_task_id : Nat := 1
  deriving Repr, DecidableEq

/-- A flashed message, `flash(msg, category)` in app.py. -/
inductive Flash where
  | success (msg : String)
  | danger (msg : String)
  deriving Repr, DecidableEq

/-- Outcome of a POST handler: a redirect (with at most one flash recorded
by the handled branch), a plain re-render of the page (the POST block was
skipped entirely), or `abort(403)`. -/
inductive PostResult where
  | redirect (flash : Option Flash)
  | render
  | forbidden
  deriving Repr, DecidableEq

/-- Truthiness of `request.form.get(key, type=int)`: `None` and `0` are
falsy in Python. -/
def truthyNat : Option Nat → Bool
  | some n => n != 0
  | none => false

/-- Python `str.strip()`: drop whitespace from both ends. -/
def pyStrip (s : String) : String :=
  String.mk (((s.data.dropWhile Char.isWhitespace).reverse.dropWhile
    Char.isWhitespace).reverse)

/-- Python `str.lower()`: lower-case every character. -/
def pyLower (s : String) : String :=
  String.mk (s.data.map Char.toLower)

/-- The `add_card` branch of `sd_cards_view` (app.py lines 275-285). -/
def addCard (label : String) (capacity_gb : Option Nat) (db : DB) : PostResult × DB :=
  if (pyStrip label) != "" then
    (.redirect (some (.success "SD card added")),
     { db with
       sd_cards := db.sd_cards ++
         [{ id := db.next_sd_card_id, label := (pyStrip label),
            capacity_gb := capacity_gb, status := "available" }],
       next_sd_card_id := db.next_sd_card_id + 1 })
  else
    (.redirect (some (.danger "Label is required")), db)

/-- The `checkout` branch of `sd_cards_view` (app.py lines 287-307):
look up the card, require status `available`, open a log row and set the
card's status, committing both together. -/
def checkoutAction (actorId : Nat) (sd_card_id : Option Nat)
    (event_id session_id : Option Nat) (purpose : String) (now : Nat)
    (db : DB) : PostResult × DB :=
  match sd_card_id.bind (fun i => db.sd_cards.find? (fun c => c.id == i)) with
  | some card =>
    if card.status == "available" then
      (.redirect (some (.success "SD card checked out")),
       { db with
         sd_cards := db.sd_cards.map (fun c =>
           if c.id == card.id then { c with status := "checked_out" } else c),
         sd_card_logs := db.sd_card_logs ++
           [{ id := db.next_log_id, sd_card_id := card.id, user_id := actorId,
              event_id := event_id, session_id := session_id, purpose := purpose,
              checked_out_at := now, returned_at := none }],
         next_log_id := db.next_log_id + 1 })
    else
      (.redirect (some (.danger "Card not available")), db)
  | none => (.redirect (some (.danger "Card not available")), db)

/-- The `return` branch of `sd_cards_view` (app.py lines 309-319):
look up the log, require it open, stamp `returned_at` and free the card,
committing both together. -/
def returnAction (log_id : Option Nat) (now : Nat) (db : DB) : PostResult × DB :=
  match log_id.bind (fun i => db.sd_card_logs.find? (fun l => l.id == i)) with
  | some log =>
    if log.returned_at == none then
      (.redirect (some (.success "SD card returned")),
       { db with
         sd_card_logs := db.sd_card_logs.map (fun l =>
           if l.id == log.id then { l with returned_at := some now } else l),
         sd_cards := db.sd_cards.map (fun c =>
           if c.id == log.sd_card_id then { c with status := "available" } else c) })
    else
      (.redirect (some (.danger "Could not return card")), db)
  | none => (.redirect (some (.danger "Could not return card")), db)

/-- POST dispatch of `sd_cards_view` (app.py lines 272-321): `add_card`
runs only for founders, `checkout` and `return` for any logged-in user;
an unmatched action falls through to the closing redirect. -/
def sdCardsPost (actor : User) (action : Option String)
    (label : String) (capacity_gb : Option Nat)
    (sd_card_id event_id session_id : Option Nat) (purpose : String)
    (log_id : Option Nat) (now : Nat) (db : DB) : PostResult × DB :=
  if action == some "add_card" && actor.role == "founder" then
    addCard label capacity_gb db
  else if action == some "checkout" then
    checkoutAction actor.id sd_card_id event_id session_id purpose now db
  else if action == some "return" then
    returnAction log_id now db
  else
    (.redirect none, db)

/-- The `add_athlete_session` branch of `athletes_view` (app.py lines
351-390): validate the mandatory fields, resolve the athlete by exact
(name, team) match, create it if absent, then insert the booking.
The same (stripped) `notes` value is stored on both a freshly created
athlete and the booking row, as in the source. -/
def addAthleteSession (athlete_name team weight_class notes : String)
    (session_id package_id : Option Nat)
    (music_link music_start music_end : String) (paid : Bool)
    (db : DB) : PostResult × DB :=
  if !((pyStrip athlete_name) != "" && session_id.isSome && package_id.isSome) then
    (.redirect (some (.danger "Athlete name, session and package are required")), db)
  else
    match db.athletes.find? (fun a =>
        a.name == (pyStrip athlete_name) && a.team == (pyStrip team)) with
    | some athlete =>
      (.redirect (some (.success "Athlete session saved")),
       { db with
         athlete_sessions := db.athlete_sessions ++
           [{ id := db.next_athlete_session_id, athlete_id := athlete.id,
              session_id := session_id.getD 0, package_id := package_id.getD 0,
              music_link := (pyStrip music_link), music_start := (pyStrip music_start),
              music_end := (pyStrip music_end), paid := paid, notes := (pyStrip notes) }],
         next_athlete_session_id := db.next_athlete_session_id + 1 })
    | none =>
      (.redirect (some (.success "Athlete session saved")),
       { db with
         athletes := db.athletes ++
           [{ id := db.next_athlete_id, name := (pyStrip athlete_name),
              team := (pyStrip team), weight_class := (pyStrip weight_class),
              notes := (pyStrip notes) }],
         athlete_sessions := db.athlete_sessions ++
           [{ id := db.next_athlete_session_id, athlete_id := db.next_athlete_id,
              session_id := session_id.getD 0, package_id := package_id.getD 0,
              music_link := (pyStrip music_link), music_start := (pyStrip music_start),
              music_end := (pyStrip music_end), paid := paid, notes := (pyStrip notes) }],
         next_athlete_id := db.next_athlete_id + 1,
         next_athlete_session_id := db.next_athlete_session_id + 1 })

/-- POST dispatch of `athletes_view` (app.py lines 345-392): the whole
POST block is guarded by `current_user.role == "founder"`; a non-founder
POST skips it and just re-renders the listing. -/
def athletesPost (actor : User) (action : Option String)
    (athlete_name team weight_class notes : String)
    (session_id package_id : Option Nat)
    (music_link music_start music_end : String) (paid : Bool)
    (db : DB) : PostResult × DB :=
  if actor.role == "founder" then
    if action == some "add_athlete_session" then
      addAthleteSession athlete_name team weight_class notes session_id package_id
        music_link music_start music_end paid db
    else
      (.redirect none, db)
  else
    (.render, db)

/-- POST dispatch of `manpower_view` (app.py lines 448-472): founder-gated
block; validates all fields but notes, then inserts an allocation row. -/
def manpowerPost (actor : User)
    (event_id session_id user_id : Option Nat) (role notes : String)
    (db : DB) : PostResult × DB :=
  if actor.role == "founder" then
    if truthyNat event_id && truthyNat session_id && truthyNat user_id
        && (pyStrip role) != "" then
      (.redirect (some (.success "Manpower allocation added")),
       { db with
         manpower_allocations := db.manpower_allocations ++
           [{ id := db.next_allocation_id, event_id := event_id.getD 0,
              session_id := session_id.getD 0, user_id := user_id.getD 0,
              role := (pyStrip role), notes := (pyStrip notes) }],
         next_allocation_id := db.next_allocation_id + 1 })
    else
      (.redirect (some (.danger "Event, session, user and role are required")), db)
  else
    (.render, db)

/-- The `add_task` branch of `edits_view` (app.py lines 502-517). -/
def addTask (athlete_session_id assigned_to_user_id : Option Nat)
    (edit_type : String) (now : Nat) (db : DB) : PostResult × DB :=
  if truthyNat athlete_session_id && truthyNat assigned_to_user_id
      && (pyStrip edit_type) != "" then
    (.redirect (some (.success "Edit task created")),
     { db with
       edit_tasks := db.edit_tasks ++
         [{ id := db.next_task_id, athlete_session_id := athlete_session_id.getD 0,
            assigned_to_user_id := assigned_to_user_id.getD 0,
            type := (pyStrip edit_type), status := "not_started",
            deliverable_link := none, updated_at := now }],
       next_task_id := db.next_task_id + 1 })
  else
    (.redirect (some (.danger "All fields are required")), db)

/-- The `update_status` branch of `edits_view` (app.py lines 519-535):
look up the task, allow only founder or current assignee (otherwise
`abort(403)`); replace status only when non-empty, keep the previous
deliverable link when the input is empty (`deliverable_link or
task.deliverable_link`), always refresh `updated_at`. -/
def updateStatus (actor : User) (task_id : Option Nat)
    (status deliverable_link : String) (now : Nat) (db : DB) : PostResult × DB :=
  match task_id.bind (fun i => db.edit_tasks.find? (fun t => t.id == i)) with
  | none => (.redirect (some (.danger "Task not found")), db)
  | some task =>
    if actor.role != "founder" && task.assigned_to_user_id != actor.id then
      (.forbidden, db)
    else
      (.redirect (some (.success "Task updated")),
       { db with
         edit_tasks := db.edit_tasks.map (fun t =>
           if t.id == task.id then
             { t with
               status := if (pyStrip status) != "" then (pyStrip status) else t.status,
               deliverable_link :=
                 if (pyStrip deliverable_link) != "" then some (pyStrip deliverable_link)
                 else t.deliverable_link,
               updated_at := now }
           else t) })

/-- POST dispatch of `edits_view` (app.py lines 499-537): `add_task` runs
only for founders (silently skipped otherwise); `update_status` runs for
any logged-in user and does its own founder-or-assignee check. -/
def editsPost (actor : User) (action : Option String)
    (athlete_session_id assigned_to_user_id : Option Nat) (edit_type : String)
    (task_id : Option Nat) (status deliverable_link : String) (now : Nat)
    (db : DB) : PostResult × DB :=
  if action == some "add_task" && actor.role == "founder" then
    addTask athlete_session_id assigned_to_user_id edit_type now db
  else if action == some "update_status" then
    updateStatus actor task_id status deliverable_link now db
  else
    (.redirect none, db)

/-- POST dispatch of `manage_events` (app.py lines 579-635).  The
`founder_required` decorator aborts with 403 before the handler body runs
for any non-founder.  Date strings are parsed by the boundary collaborator
`parseDate` (strptime with format %Y-%m-%d); `none` models ValueError. -/
def manageEventsPost (actor : User) (action : Option String)
    (name date_start_str date_end_str location : String)
    (event_id : Option Nat) (label : String) (date_str time_block : String)
    (parseDate : String → Option Nat) (db : DB) : PostResult × DB :=
  if !(actor.role == "founder") then
    (.forbidden, db)
  else if action == some "add_event" then
    match parseDate (pyStrip date_start_str), parseDate (pyStrip date_end_str) with
    | some ds, some de =>
      if (pyStrip name) == "" then
        (.redirect (some (.danger "Event name is required")), db)
      else
        (.redirect (some (.success "Event created")),
         { db with
           events := db.events ++
             [{ id := db.next_event_id, name := (pyStrip name), date_start := ds,
                date_end := de, location := (pyStrip location) }],
           next_event_id := db.next_event_id + 1 })
    | _, _ => (.redirect (some (.danger "Invalid dates for event")), db)
  else if action == some "add_session" then
    if !(truthyNat event_id && (pyStrip label) != "" && (pyStrip date_str) != "") then
      (.redirect (some (.danger "Event, label and date are required for session")), db)
    else
      match parseDate (pyStrip date_str) with
      | none => (.redirect (some (.danger "Invalid session date")), db)
      | some d =>
        (.redirect (some (.success "Session created")),
         { db with
           sessions := db.sessions ++
             [{ id := db.next_session_id, event_id := event_id.getD 0,
                label := (pyStrip label), date := d,
                time_block := if (pyStrip time_block) == "" then none
                              else some (pyStrip time_block) }],
           next_session_id := db.next_session_id + 1 })
  else
    (.redirect none, db)

/-- POST handler of `manage_packages` (app.py lines 646-662), behind
`founder_required`. -/
def managePackagesPost (actor : User) (name description : String)
    (db : DB) : PostResult × DB :=
  if !(actor.role == "founder") then
    (.forbidden, db)
  else if (pyStrip name) == "" then
    (.redirect (some (.danger "Package name is required")), db)
  else
    (.redirect (some (.success "Package created")),
     { db with
       packages := db.packages ++
         [{ id := db.next_package_id, name := (pyStrip name),
            description := (pyStrip description) }],
       next_package_id := db.next_package_id + 1 })

/-- The `add_user` branch of `manage_users` (app.py lines 679-697): the
role field is taken from the form with default "freelancer" and stored
without validation. -/
def addUser (name email password : String) (role : Option String)
    (active : Bool) (hash : String → String) (db : DB) : PostResult × DB :=
  if !((pyStrip name) != "" && (pyLower (pyStrip email)) != "" && password != "") then
    (.redirect (some (.danger "Name, email and password are required")), db)
  else
    match db.users.find? (fun u => u.email == (pyLower (pyStrip email))) with
    | some _ =>
      (.redirect (some (.danger "User with that email already exists")), db)
    | none =>
      (.redirect (some (.success "User created")),
       { db with
         users := db.users ++
           [{ id := db.next_user_id, name := (pyStrip name),
              email := (pyLower (pyStrip email)), passwordHash := hash password,
              role := role.getD "freelancer", active := active }],
         next_user_id := db.next_user_id + 1 })

/-- The `toggle_active` branch of `manage_users` (app.py lines 699-707). -/
def toggleActive (user_id : Option Nat) (db : DB) : PostResult × DB :=
  match user_id.bind (fun i => db.users.find? (fun u => u.id == i)) with
  | some user =>
    (.redirect (some (.success "User status updated")),
     { db with
       users := db.users.map (fun u =>
         if u.id == user.id then { u with active := !u.active } else u) })
  | none => (.redirect (some (.danger "User not found")), db)

/-- The `change_role` branch of `manage_users` (app.py lines 709-718):
this branch does validate the new role against the two allowed values. -/
def changeRole (user_id : Option Nat) (new_role : String) (db : DB) : PostResult × DB :=
  match user_id.bind (fun i => db.users.find? (fun u => u.id == i)) with
  | some user =>
    if (pyStrip new_role) == "founder" || (pyStrip new_role) == "freelancer" then
      (.redirect (some (.success "User role updated")),
       { db with
         users := db.users.map (fun u =>
           if u.id == user.id then { u with role := (pyStrip new_role) } else u) })
    else
      (.redirect (some (.danger "Could not change role")), db)
  | none => (.redirect (some (.danger "Could not change role")), db)

/-- POST dispatch of `manage_users` (app.py lines 672-720), behind
`founder_required`. -/
def manageUsersPost (actor : User) (action : Option String)
    (name email password : String) (role : Option String) (active : Bool)
    (user_id : Option Nat) (new_role : String)
    (hash : String → String) (db : DB) : PostResult × DB :=
  if !(actor.role == "founder") then
    (.forbidden, db)
  else if action == some "add_user" then
    addUser name email password role active hash db
  else if action == some "toggle_active" then
    toggleActive user_id db
  else if action == some "change_role" then
    changeRole user_id new_role db
  else
    (.redirect none, db)

/-- The bootstrap utility (src/create_admin.py): create the initial
founder user unless the (normalized) email is already taken; the returned
string is the printed outcome line. -/
def createAdmin (email name password : String) (hash : String → String)
    (db : DB) : String × DB :=
  match db.users.find? (fun u => u.email == (pyLower (pyStrip email))) with
  | some _ => ( "User with that email already exists.", db)
  | none =>
    ( "Founder user created.",
     { db with
       users := db.users ++
         [{ id := db.next_user_id, name := (pyStrip name),
            email := (pyLower (pyStrip email)), passwordHash := hash password,
            role := "founder", active := true }],
       next_user_id := db.next_user_id + 1 })

/-- The POST branch of `login` (app.py lines 225-233): normalize the
submitted email, look up an active user with exactly that stored email,
and verify the password through the credential-store collaborator.
Returns the logged-in user on success. -/
def login (email password : String) (verify : String → String → Bool)
    (db : DB) : Option User :=
  match db.users.find? (fun u => u.email == (pyLower (pyStrip email)) && u.active) with
  | some user => if verify user.passwordHash password then some user else none
  | none => none

/-- Number of open logs (returned_at is null) recorded against a card id. -/
def openLogCount (db : DB) (cid : Nat) : Nat :=
  db.sd_card_logs.countP (fun l => l.sd_card_id == cid && l.returned_at == none)

/-- The invariant exactly as the spec states it: a card's status is
`checked_out` if and only if it has exactly one open log. -/
abbrev iffInvariant (db : DB) : Prop :=
  ∀ c ∈ db.sd_cards, (c.status = "checked_out" ↔ openLogCount db c.id = 1)

/-- The inductive strengthening: a checked-out card has exactly one open
log and any other card has none (this is the spec's iff combined with its
"one open log per card at a time" sentence). -/
abbrev strongInvariant (db : DB) : Prop :=
  ∀ c ∈ db.sd_cards, openLogCount db c.id = (if c.status = "checked_out" then 1 else 0)

/-- Primary-key integrity of the log table: ids are pairwise distinct and
below the autoincrement counter. -/
abbrev logsWF (db : DB) : Prop :=
  (db.sd_card_logs.map (fun l => l.id)).Nodup ∧
  ∀ l ∈ db.sd_card_logs, l.id < db.next_log_id

/-- One card-custody operation as submitted through `sd_cards_view`. -/
inductive CardOp where
  | checkout (actorId : Nat) (sd_card_id event_id session_id : Option Nat)
      (purpose : String) (now : Nat)
  | ret (log_id : Option Nat) (now : Nat)

/-- State reached by one card-custody operation (result flash dropped). -/
def applyOp : CardOp → DB → DB
  | .checkout a c e s p n, db => (checkoutAction a c e s p n db).2
  | .ret l n, db => (returnAction l n db).2

/-- State reached by a sequence of card-custody operations. -/
def applyOps (ops : List CardOp) (db : DB) : DB :=
  ops.foldl (fun d o => applyOp o d) db

/-- Modelled from the claim's wording, not from the source (used only to
compare against `login`): authentication succeeds iff some user's
normalized (trimmed, lower-cased) email equals the submitted email, that
user is active, and the stored hash verifies the submitted password. -/
abbrev specLoginOk (email password : String) (verify : String → String → Bool)
    (db : DB) : Prop :=
  ∃ u ∈ db.users,
    (pyLower (pyStrip u.email)) = email ∧ u.active = true ∧
    verify u.passwordHash password = true

/-! General list helpers shared by several proofs. -/

theorem list_map_eq_self {α : Type} (f : α → α) :
    ∀ (l : List α), (∀ a ∈ l, f a = a) → l.map f = l
  | [], _ => rfl
  | a :: t, h => by
    simp only [List.map_cons]
    rw [h a (List.mem_cons_self a t),
      list_map_eq_self f t (fun b hb => h b (List.mem_cons_of_mem a hb))]

theorem list_find?_append_none {α : Type} (p : α → Bool) :
    ∀ (l₁ l₂ : List α), l₁.find? p = none → (l₁ ++ l₂).find? p = l₂.find? p
  | [], _, _ => rfl
  | a :: t, l₂, h => by
    by_cases hp : p a
    · simp [List.find?_cons_of_pos _ hp] at h
    · simp only [List.cons_append, List.find?_cons_of_neg _ hp] at h ⊢
      exact list_find?_append_none p t l₂ h

theorem list_find?_map_pres {α : Type} (f : α → α) (p : α → Bool)
    (hp : ∀ a, p (f a) = p a) :
    ∀ (l : List α), (l.map f).find? p = (l.find? p).map f
  | [] => rfl
  | a :: t => by
    by_cases h : p a
    · rw [List.map_cons, List.find?_cons_of_pos _ h,
        List.find?_cons_of_pos _ (show p (f a) from by rw [hp a]; exact h)]
      rfl
    · rw [List.map_cons, List.find?_cons_of_neg _ h,
        List.find?_cons_of_neg _ (show ¬ p (f a) = true from by rw [hp a]; exact h),
        list_find?_map_pres f p hp t]

/-- C3: a checkout request against a card whose status is not `available`
fails with the "Card not available" conflict flash and returns the store
unchanged: no log row is created and the card's status is untouched. -/
theorem checkout_conflict (actor : User) (db : DB) (cid : Nat)
    (label purpose : String) (capacity_gb : Option Nat)
    (event_id session_id log_id : Option Nat) (now : Nat) (card : SdCard)
    (hfind : db.sd_cards.find? (fun c => c.id == cid) = some card)
    (hstatus : card.status ≠ "available") :
    sdCardsPost actor (some "checkout") label capacity_gb (some cid)
      event_id session_id purpose log_id now db
      = (.redirect (some (.danger "Card not available")), db) := by
  have hdisp : sdCardsPost actor (some "checkout") label capacity_gb (some cid)
      event_id session_id purpose log_id now db
      = checkoutAction actor.id (some cid) event_id session_id purpose now db := rfl
  have hs : (card.status == "available") = false := beq_eq_false_iff_ne.mpr hstatus
  rw [hdisp]
  simp only [checkoutAction, Option.some_bind, hfind, hs, Bool.false_eq_true, if_false]

def witFounder : User :=
  { id := 1, name := "F", email := "f@x.com", passwordHash := "h",
    role := "founder", active := true }

def witFreelancer : User :=
  { id := 2, name := "S", email := "s@x.com", passwordHash := "h",
    role := "freelancer", active := true }

def witCheckedOutDB : DB :=
  { sd_cards := [{ id := 1, label := "SD-1", capacity_gb := some 64,
                   status := "checked_out" }],
    sd_card_logs := [{ id := 1, sd_card_id := 1, user_id := 2, event_id := none,
                       session_id := none, purpose := "shoot",
                       checked_out_at := 0, returned_at := none }],
    next_sd_card_id := 2, next_log_id := 2 }

/-- Witness for C3 at a concrete checked-out card. -/
theorem checkout_conflict_witness :
    sdCardsPost witFreelancer (some "checkout") "" none (some 1) none none "" none 9
      witCheckedOutDB
      = (.redirect (some (.danger "Card not available")), witCheckedOutDB) :=
  checkout_conflict witFreelancer witCheckedOutDB 1 "" "" none none none none 9
    { id := 1, label := "SD-1", capacity_gb := some 64, status := "checked_out" }
    (by decide) (by decide)

/-- C4: a return request through the SD-cards view is exactly the
`returnAction` branch; when the log id does not resolve to a currently
open log (missing id or `returned_at` already set) it fails with the
"Could not return card" flash and mutates nothing, and on an open log it
stamps `returned_at = now` on that log and sets its card's status to
`available` in the same committed state. -/
theorem return_semantics (actor : User) (db : DB) (lid : Nat)
    (label purpose : String) (capacity_gb : Option Nat)
    (sd_card_id event_id session_id : Option Nat) (now : Nat) :
    (sdCardsPost actor (some "return") label capacity_gb sd_card_id event_id
        session_id purpose (some lid) now db
      = returnAction (some lid) now db) ∧
    ((∀ log, db.sd_card_logs.find? (fun l => l.id == lid) = some log →
        log.returned_at ≠ none) →
      returnAction (some lid) now db
        = (.redirect (some (.danger "Could not return card")), db)) ∧
    (∀ log, db.sd_card_logs.find? (fun l => l.id == lid) = some log →
      log.returned_at = none →
      (returnAction (some lid) now db).1
        = .redirect (some (.success "SD card returned")) ∧
      (∀ l ∈ db.sd_card_logs,
        (if l.id = log.id then { l with returned_at := some now } else l)
          ∈ (returnAction (some lid) now db).2.sd_card_logs) ∧
      (∀ c ∈ db.sd_cards,
        (if c.id = log.sd_card_id then { c with status := "available" } else c)
          ∈ (returnAction (some lid) now db).2.sd_cards) ∧
      (returnAction (some lid) now db).2.users = db.users ∧
      (returnAction (some lid) now db).2.athletes = db.athletes ∧
      (returnAction (some lid) now db).2.athlete_sessions = db.athlete_sessions ∧
      (returnAction (some lid) now db).2.edit_tasks = db.edit_tasks) := by
  refine ⟨rfl, ?_, ?_⟩
  · intro h
    cases hf : db.sd_card_logs.find? (fun l => l.id == lid) with
    | none => simp only [returnAction, Option.some_bind, hf]
    | some log =>
      have hret : (log.returned_at == none) = false :=
        beq_eq_false_iff_ne.mpr (h log hf)
      simp only [returnAction, Option.some_bind, hf, hret, Bool.false_eq_true, if_false]
  · intro log hf hopen
    have hcond : (log.returned_at == none) = true := by rw [hopen]; rfl
    refine ⟨?_, ?_, ?_, ?_, ?_, ?_, ?_⟩ <;>
      simp only [returnAction, Option.some_bind, hf, hcond, if_true]
    · intro l hl
      have hm := List.mem_map_of_mem (fun l : SdCardLog =>
        if l.id == log.id then { l with returned_at := some now } else l) hl
      by_cases hid : l.id = log.id
      · simpa [hid] using hm
      · have : (l.id == log.id) = false := beq_eq_false_iff_ne.mpr hid
        simpa [hid, this] using hm
    · intro c hc
      have hm := List.mem_map_of_mem (fun c : SdCard =>
        if c.id == log.sd_card_id then { c with status := "available" } else c) hc
      by_cases hid : c.id = log.sd_card_id
      · simpa [hid] using hm
      · have : (c.id == log.sd_card_id) = false := beq_eq_false_iff_ne.mpr hid
        simpa [hid, this] using hm

/-- Witness for C4: returning the open log of `witCheckedOutDB` succeeds. -/
theorem return_semantics_witness :
    (returnAction (some 1) 9 witCheckedOutDB).1
      = .redirect (some (.success "SD card returned")) ∧
    (returnAction (some 1) 9 witCheckedOutDB).2.sd_card_logs
      = [{ id := 1, sd_card_id := 1, user_id := 2, event_id := none,
           session_id := none, purpose := "shoot", checked_out_at := 0,
           returned_at := some 9 }] := by
  have h := (return_semantics witFreelancer witCheckedOutDB 1 "" "" none
    none none none 9).2.2
    { id := 1, sd_card_id := 1, user_id := 2, event_id := none,
      session_id := none, purpose := "shoot", checked_out_at := 0,
      returned_at := none } (by decide) rfl
  exact ⟨h.1, by decide⟩

/-- C6: `update_status` on a task id that does not resolve fails with the
"Task not found" flash and leaves the store unchanged, and on an existing
task a caller who is neither a founder nor the current assignee gets a 403
abort with the store, hence the task's status, deliverable link and
updated_at, unchanged. -/
theorem update_task_forbidden (actor : User) (db : DB) (tid : Option Nat)
    (asid auid : Option Nat) (etype status link : String) (now : Nat) :
    (tid.bind (fun i => db.edit_tasks.find? (fun t => t.id == i)) = none →
      editsPost actor (some "update_status") asid auid etype tid status link now db
        = (.redirect (some (.danger "Task not found")), db)) ∧
    (∀ task, tid.bind (fun i => db.edit_tasks.find? (fun t => t.id == i)) = some task →
      actor.role ≠ "founder" → task.assigned_to_user_id ≠ actor.id →
      editsPost actor (some "update_status") asid auid etype tid status link now db
        = (.forbidden, db)) := by
  have hdisp : editsPost actor (some "update_status") asid auid etype tid status link now db
      = updateStatus actor tid status link now db := rfl
  constructor
  · intro h
    rw [hdisp]
    simp only [updateStatus, h]
  · intro task hf hr ha
    rw [hdisp]
    have h1 : (actor.role != "founder") = true := bne_iff_ne.mpr hr
    have h2 : (task.assigned_to_user_id != actor.id) = true := bne_iff_ne.mpr ha
    simp only [updateStatus, hf, h1, h2, Bool.and_self, if_true]

def witTask : EditTask :=
  { id := 1, athlete_session_id := 1, assigned_to_user_id := 2, type := "photos",
    status := "not_started", deliverable_link := some "http://old", updated_at := 0 }

def witOther : User :=
  { id := 3, name := "T", email := "t@x.com", passwordHash := "h",
    role := "freelancer", active := true }

def witTaskDB : DB :=
  { users := [witFounder, witFreelancer, witOther], edit_tasks := [witTask],
    next_user_id := 4, next_task_id := 2 }

/-- Witness for C6: a freelancer who is not the assignee gets a 403 and
no state change. -/
theorem update_task_forbidden_witness :
    editsPost witOther (some "update_status") none none "" (some 1) "done" "" 5 witTaskDB
      = (.forbidden, witTaskDB) :=
  (update_task_forbidden witOther witTaskDB (some 1) none none "" "done" "" 5).2
    witTask (by decide) (by decide) (by decide)

/-- C7: a successful `update_status` keeps the old status when the
supplied status strips to empty and replaces it otherwise, keeps the old
deliverable link when the supplied link strips to empty and replaces it
otherwise, and always refreshes `updated_at` to now; other rows and
tables are untouched. -/
theorem update_task_merge (actor : User) (db : DB) (tid : Nat)
    (asid auid : Option Nat) (etype status link : String) (now : Nat)
    (task : EditTask)
    (hfind : db.edit_tasks.find? (fun t => t.id == tid) = some task)
    (hallow : actor.role = "founder" ∨ task.assigned_to_user_id = actor.id) :
    (editsPost actor (some "update_status") asid auid etype (some tid)
        status link now db).1
      = .redirect (some (.success "Task updated")) ∧
    (editsPost actor (some "update_status") asid auid etype (some tid)
        status link now db).2.edit_tasks.find? (fun t => t.id == tid)
      = some { task with
               status := if pyStrip status = "" then task.status else pyStrip status,
               deliverable_link := if pyStrip link = "" then task.deliverable_link
                                   else some (pyStrip link),
               updated_at := now } ∧
    (∀ t ∈ db.edit_tasks, t.id ≠ task.id →
      t ∈ (editsPost actor (some "update_status") asid auid etype (some tid)
        status link now db).2.edit_tasks) ∧
    (editsPost actor (some "update_status") asid auid etype (some tid)
        status link now db).2.users = db.users ∧
    (editsPost actor (some "update_status") asid auid etype (some tid)
        status link now db).2.sd_cards = db.sd_cards := by
  have hdisp : editsPost actor (some "update_status") asid auid etype (some tid)
      status link now db = updateStatus actor (some tid) status link now db := rfl
  have hcond : (actor.role != "founder" && task.assigned_to_user_id != actor.id)
      = false := by
    cases hallow with
    | inl h => simp [h]
    | inr h => simp [h]
  have hp : ∀ t : EditTask,
      (((fun t : EditTask =>
        if t.id == task.id then
          { t with
            status := if pyStrip status != "" then pyStrip status else t.status,
            deliverable_link := if pyStrip link != "" then some (pyStrip link)
                                else t.deliverable_link,
            updated_at := now }
        else t) t).id == tid) = (t.id == tid) := by
    intro t
    by_cases h : (t.id == task.id) = true
    · simp only [h, if_true]
    · simp only [h, Bool.false_eq_true, if_false]
  rw [hdisp]
  simp only [updateStatus, Option.some_bind, hfind, hcond, Bool.false_eq_true,
    if_false]
  refine ⟨trivial, ?_, ?_, trivial, trivial⟩
  · rw [list_find?_map_pres _ _ hp db.edit_tasks, hfind, Option.map_some']
    have hid : (task.id == task.id) = true := beq_self_eq_true task.id
    simp only [hid, if_true]
    by_cases hs : pyStrip status = "" <;> by_cases hl : pyStrip link = "" <;>
      simp [hs, hl, bne, beq_iff_eq]
  · intro t ht hne
    have hm := List.mem_map_of_mem (fun t : EditTask =>
      if t.id == task.id then
        { t with
          status := if pyStrip status != "" then pyStrip status else t.status,
          deliverable_link := if pyStrip link != "" then some (pyStrip link)
                              else t.deliverable_link,
          updated_at := now }
      else t) ht
    have hne2 : (t.id == task.id) = false := beq_eq_false_iff_ne.mpr hne
    simpa [hne2] using hm

/-- Witness for C7: the assignee sets a new status with an empty link; the
status is replaced, the old deliverable link survives, updated_at moves. -/
theorem update_task_merge_witness :
    (editsPost witFreelancer (some "update_status") none none "" (some 1)
        "in_progress" "" 5 witTaskDB).2.edit_tasks.find? (fun t => t.id == 1)
      = some { witTask with status := "in_progress", updated_at := 5 } := by
  have h := (update_task_merge witFreelancer witTaskDB 1 none none ""
    "in_progress" "" 5 witTask (by decide) (Or.inr rfl)).2.1
  rw [if_neg (by decide), if_pos (by decide)] at h
  exact h

/-- Counterexample to C2 as stated: a freelancer's `add_card` POST is not
rejected with a forbidden error — the branch is silently skipped and the
handler redirects with no flash (it does leave the store unchanged). -/
theorem founder_gating_counterexample :
    sdCardsPost witFreelancer (some "add_card") "SD-9" none none none none "" none 0
        witCheckedOutDB = (.redirect none, witCheckedOutDB) ∧
    PostResult.redirect none ≠ PostResult.forbidden :=
  ⟨by decide, by decide⟩

/-- C2 (amended): for every authenticated non-founder caller, the
founder-reserved mutations perform no write; the `founder_required`
decorated admin routes (manage events/sessions, packages, users) reject
with a 403 forbidden error, while the inline-gated actions (add card,
book athlete session, allocate manpower, create edit task) are silently
skipped (redirect or re-render) without a forbidden error. -/
theorem founder_gating (actor : User) (hrole : actor.role ≠ "founder")
    (db : DB) (action : Option String)
    (label name email password purpose etype new_role status link
      date_start_str date_end_str location date_str time_block
      athlete_name team weight_class notes music_link music_start music_end
      description : String)
    (capacity_gb sd_card_id event_id session_id log_id user_id package_id
      athlete_session_id assigned_to_user_id task_id : Option Nat)
    (paid active : Bool) (now : Nat) (role : Option String)
    (hash : String → String) (parseDate : String → Option Nat) :
    sdCardsPost actor (some "add_card") label capacity_gb sd_card_id event_id
        session_id purpose log_id now db = (.redirect none, db) ∧
    athletesPost actor action athlete_name team weight_class notes session_id
        package_id music_link music_start music_end paid db = (.render, db) ∧
    manpowerPost actor event_id session_id user_id new_role notes db
      = (.render, db) ∧
    editsPost actor (some "add_task") athlete_session_id assigned_to_user_id
        etype task_id status link now db = (.redirect none, db) ∧
    manageEventsPost actor action name date_start_str date_end_str location
        event_id label date_str time_block parseDate db = (.forbidden, db) ∧
    managePackagesPost actor name description db = (.forbidden, db) ∧
    manageUsersPost actor action name email password role active user_id
        new_role hash db = (.forbidden, db) := by
  have hf : (actor.role == "founder") = false := beq_eq_false_iff_ne.mpr hrole
  have e1 : ((some "add_card" : Option String) == some "checkout") = false := rfl
  have e2 : ((some "add_card" : Option String) == some "return") = false := rfl
  have e3 : ((some "add_task" : Option String) == some "update_status") = false := rfl
  refine ⟨?_, ?_, ?_, ?_, ?_, ?_, ?_⟩
  · simp only [sdCardsPost, hf, Bool.and_false, Bool.false_eq_true, if_false,
      e1, e2]
  · simp only [athletesPost, hf, Bool.false_eq_true, if_false]
  · simp only [manpowerPost, hf, Bool.false_eq_true, if_false]
  · simp only [editsPost, hf, Bool.and_false, Bool.false_eq_true, if_false, e3]
  · simp only [manageEventsPost, hf, Bool.not_false, if_true]
  · simp only [managePackagesPost, hf, Bool.not_false, if_true]
  · simp only [manageUsersPost, hf, Bool.not_false, if_true]

/-- Witness for C2 at a concrete freelancer caller. -/
theorem founder_gating_witness :
    manageUsersPost witFreelancer (some "add_user") "X" "x@x.com" "pw" none true
        none "" (fun p => p) witTaskDB = (.forbidden, witTaskDB) :=
  (founder_gating witFreelancer (by decide) witTaskDB (some "add_user") "" "X"
    "x@x.com" "pw" "" "" "" "" "" "" "" "" "" "" "" "" "" "" "" "" "" ""
    none none none none none none none none none none true true 0 none
    (fun p => p) (fun _ => none)).2.2.2.2.2.2

/-- A founder's `add_athlete_session` POST reaches the booking branch. -/
theorem athletesPost_founder_add (actor : User) (h : actor.role = "founder")
    (athlete_name team weight_class notes : String)
    (session_id package_id : Option Nat)
    (music_link music_start music_end : String) (paid : Bool) (db : DB) :
    athletesPost actor (some "add_athlete_session") athlete_name team
      weight_class notes session_id package_id music_link music_start
      music_end paid db
    = addAthleteSession athlete_name team weight_class notes session_id
        package_id music_link music_start music_end paid db := by
  have hr : (actor.role == "founder") = true := beq_iff_eq.mpr h
  simp only [athletesPost, hr, if_true]
  rfl

/-- Booking when no athlete matches the stripped (name, team) pair:
a new Athlete row is created and the booking references it. -/
theorem addAthleteSession_new (athlete_name team wc n ml ms me : String)
    (sid pid : Nat) (paid : Bool) (db : DB)
    (hname : pyStrip athlete_name ≠ "")
    (hnomatch : db.athletes.find? (fun a =>
      a.name == pyStrip athlete_name && a.team == pyStrip team) = none) :
    addAthleteSession athlete_name team wc n (some sid) (some pid) ml ms me paid db
      = (.redirect (some (.success "Athlete session saved")),
         { db with
           athletes := db.athletes ++
             [{ id := db.next_athlete_id, name := pyStrip athlete_name,
                team := pyStrip team, weight_class := pyStrip wc,
                notes := pyStrip n }],
           athlete_sessions := db.athlete_sessions ++
             [{ id := db.next_athlete_session_id,
                athlete_id := db.next_athlete_id, session_id := sid,
                package_id := pid, music_link := pyStrip ml,
                music_start := pyStrip ms, music_end := pyStrip me,
                paid := paid, notes := pyStrip n }],
           next_athlete_id := db.next_athlete_id + 1,
           next_athlete_session_id := db.next_athlete_session_id + 1 }) := by
  have hn : (pyStrip athlete_name != "") = true := bne_iff_ne.mpr hname
  simp only [addAthleteSession, hn, Option.isSome_some, Bool.and_self,
    Bool.true_and, Bool.and_true, Bool.not_true, Bool.false_eq_true, if_false,
    hnomatch, Option.getD_some]

/-- Booking when an athlete already matches the stripped (name, team) pair:
the existing athlete id is reused (whatever weight class or notes this call
carries) and no Athlete row is created. -/
theorem addAthleteSession_existing (athlete_name team wc n ml ms me : String)
    (sid pid : Nat) (paid : Bool) (db : DB) (athlete : Athlete)
    (hname : pyStrip athlete_name ≠ "")
    (hfind : db.athletes.find? (fun a =>
      a.name == pyStrip athlete_name && a.team == pyStrip team) = some athlete) :
    addAthleteSession athlete_name team wc n (some sid) (some pid) ml ms me paid db
      = (.redirect (some (.success "Athlete session saved")),
         { db with
           athlete_sessions := db.athlete_sessions ++
             [{ id := db.next_athlete_session_id, athlete_id := athlete.id,
                session_id := sid, package_id := pid, music_link := pyStrip ml,
                music_start := pyStrip ms, music_end := pyStrip me,
                paid := paid, notes := pyStrip n }],
           next_athlete_session_id := db.next_athlete_session_id + 1 }) := by
  have hn : (pyStrip athlete_name != "") = true := bne_iff_ne.mpr hname
  simp only [addAthleteSession, hn, Option.isSome_some, Bool.and_self,
    Bool.true_and, Bool.and_true, Bool.not_true, Bool.false_eq_true, if_false,
    hfind, Option.getD_some]

/-- Two sequential bookings through the athletes view, submitted with the
same raw athlete name and team fields but otherwise independent payloads. -/
def bookTwice (actor : User) (athlete_name team : String)
    (wc1 n1 ml1 ms1 me1 : String) (sid1 pid1 : Nat) (paid1 : Bool)
    (wc2 n2 ml2 ms2 me2 : String) (sid2 pid2 : Nat) (paid2 : Bool)
    (db : DB) : DB :=
  (athletesPost actor (some "add_athlete_session") athlete_name team wc2 n2
    (some sid2) (some pid2) ml2 ms2 me2 paid2
    (athletesPost actor (some "add_athlete_session") athlete_name team wc1 n1
      (some sid1) (some pid1) ml1 ms1 me1 paid1 db).2).2

/-- C5: booking twice with the same (athlete_name, team) pair, starting
from a store with no matching athlete, creates exactly one new Athlete row
(carrying the first call's weight class and notes) and exactly two new
AthleteSession rows, both referencing that single athlete's id, even when
the second call's weight class, notes or other fields differ. -/
theorem double_booking_single_athlete (actor : User)
    (hrole : actor.role = "founder") (db : DB) (athlete_name team : String)
    (wc1 n1 ml1 ms1 me1 : String) (sid1 pid1 : Nat) (paid1 : Bool)
    (wc2 n2 ml2 ms2 me2 : String) (sid2 pid2 : Nat) (paid2 : Bool)
    (hname : pyStrip athlete_name ≠ "")
    (hnomatch : db.athletes.find? (fun a =>
      a.name == pyStrip athlete_name && a.team == pyStrip team) = none) :
    (bookTwice actor athlete_name team wc1 n1 ml1 ms1 me1 sid1 pid1 paid1
        wc2 n2 ml2 ms2 me2 sid2 pid2 paid2 db).athletes
      = db.athletes ++
        [{ id := db.next_athlete_id, name := pyStrip athlete_name,
           team := pyStrip team, weight_class := pyStrip wc1,
           notes := pyStrip n1 }] ∧
    (bookTwice actor athlete_name team wc1 n1 ml1 ms1 me1 sid1 pid1 paid1
        wc2 n2 ml2 ms2 me2 sid2 pid2 paid2 db).athlete_sessions
      = db.athlete_sessions ++
        [{ id := db.next_athlete_session_id, athlete_id := db.next_athlete_id,
           session_id := sid1, package_id := pid1, music_link := pyStrip ml1,
           music_start := pyStrip ms1, music_end := pyStrip me1,
           paid := paid1, notes := pyStrip n1 },
         { id := db.next_athlete_session_id + 1,
           athlete_id := db.next_athlete_id, session_id := sid2,
           package_id := pid2, music_link := pyStrip ml2,
           music_start := pyStrip ms2, music_end := pyStrip me2,
           paid := paid2, notes := pyStrip n2 }] := by
  have hfind2 : List.find? (fun a : Athlete =>
        a.name == pyStrip athlete_name && a.team == pyStrip team)
      (db.athletes ++
        [({ id := db.next_athlete_id, name := pyStrip athlete_name,
            team := pyStrip team, weight_class := pyStrip wc1,
            notes := pyStrip n1 } : Athlete)])
      = some { id := db.next_athlete_id, name := pyStrip athlete_name,
               team := pyStrip team, weight_class := pyStrip wc1,
               notes := pyStrip n1 } := by
    rw [list_find?_append_none _ _ _ hnomatch, List.find?_cons_of_pos _ (by simp)]
  rw [bookTwice,
    athletesPost_founder_add actor hrole athlete_name team wc1 n1 (some sid1)
      (some pid1) ml1 ms1 me1 paid1 db,
    addAthleteSession_new athlete_name team wc1 n1 ml1 ms1 me1 sid1 pid1 paid1
      db hname hnomatch,
    athletesPost_founder_add actor hrole,
    addAthleteSession_existing athlete_name team wc2 n2 ml2 ms2 me2 sid2 pid2
      paid2 _
      { id := db.next_athlete_id, name := pyStrip athlete_name,
        team := pyStrip team, weight_class := pyStrip wc1,
        notes := pyStrip n1 } hname hfind2]
  constructor
  · rfl
  · simp

/-- Witness for C5 starting from the empty store. -/
theorem double_booking_single_athlete_witness :
    (bookTwice witFounder "Jane Doe" "Iron" "57kg" "" "" "" "" 1 1 true
        "60kg" "note2" "" "" "" 2 1 false {}).athletes
      = [] ++ [{ id := 1, name := pyStrip "Jane Doe", team := pyStrip "Iron",
                 weight_class := pyStrip "57kg", notes := pyStrip "" }] :=
  (double_booking_single_athlete witFounder rfl {} "Jane Doe" "Iron" "57kg" ""
    "" "" "" 1 1 true "60kg" "note2" "" "" "" 2 1 false (by decide) rfl).1

def witUsersDB : DB := { users := [witFounder], next_user_id := 2 }

/-- C8 (code evaluated at the failing input): the `add_user` branch stores
whatever role string the form carries — here the unvalidated value
"admin" — although the model's own comment restricts role to "founder" or
"freelancer" and the `change_role` branch and the bootstrap do validate. -/
theorem add_user_role_unvalidated :
    ((manageUsersPost witFounder (some "add_user") "Bob" "bob@x.com" "pw"
        (some "admin") true none "" (fun p => p) witUsersDB).2.users.map
      (fun u => u.role)) = ["founder", "admin"] := by decide

/-- C9: creating a user with an email that is already stored (normalized)
reports a conflict and writes nothing, both in the bootstrap utility and
in the admin `add_user` branch — re-running is a no-op, never a
duplicate; and the bootstrap with a fresh email creates exactly one user
with role "founder" and active = true. -/
theorem user_creation_conflict_safe (db : DB) (email name password : String)
    (hash : String → String) (actor : User) (uname upass : String)
    (uactive : Bool) (urole : Option String) :
    (db.users.find? (fun u => u.email == pyLower (pyStrip email)) ≠ none →
      createAdmin email name password hash db
        = ( "User with that email already exists.", db)) ∧
    (db.users.find? (fun u => u.email == pyLower (pyStrip email)) = none →
      createAdmin email name password hash db
        = ( "Founder user created.",
           { db with
             users := db.users ++
               [{ id := db.next_user_id, name := pyStrip name,
                  email := pyLower (pyStrip email),
                  passwordHash := hash password, role := "founder",
                  active := true }],
             next_user_id := db.next_user_id + 1 })) ∧
    (actor.role = "founder" → pyStrip uname ≠ "" →
      pyLower (pyStrip email) ≠ "" → upass ≠ "" →
      db.users.find? (fun u => u.email == pyLower (pyStrip email)) ≠ none →
      manageUsersPost actor (some "add_user") uname email upass urole uactive
          none "" hash db
        = (.redirect (some (.danger "User with that email already exists")), db)) := by
  refine ⟨?_, ?_, ?_⟩
  · intro h
    cases hf : db.users.find? (fun u => u.email == pyLower (pyStrip email)) with
    | none => exact absurd hf h
    | some u => simp only [createAdmin, hf]
  · intro h
    simp only [createAdmin, h]
  · intro hrole hn he hp h
    have hr : (actor.role == "founder") = true := beq_iff_eq.mpr hrole
    have hdisp : manageUsersPost actor (some "add_user") uname email upass urole
        uactive none "" hash db = addUser uname email upass urole uactive hash db := by
      simp only [manageUsersPost, hr, Bool.not_true, Bool.false_eq_true, if_false]
      rfl
    rw [hdisp]
    have hn1 : (pyStrip uname != "") = true := bne_iff_ne.mpr hn
    have he1 : (pyLower (pyStrip email) != "") = true := bne_iff_ne.mpr he
    have hp1 : (upass != "") = true := bne_iff_ne.mpr hp
    cases hf : db.users.find? (fun u => u.email == pyLower (pyStrip email)) with
    | none => exact absurd hf h
    | some u =>
      simp only [addUser, hn1, he1, hp1, Bool.and_self, Bool.true_and,
        Bool.and_true, Bool.not_true, Bool.false_eq_true, if_false, hf]

/-- Witness for C9: bootstrap on the empty store creates the founder. -/
theorem user_creation_conflict_safe_witness :
    createAdmin "Jo@X.com" " Jo " "pw" (fun p => p) {}
      = ( "Founder user created.",
         { users := [{ id := 1, name := pyStrip " Jo ",
                       email := pyLower (pyStrip "Jo@X.com"),
                       passwordHash := "pw", role := "founder",
                       active := true }],
           next_user_id := 2 }) :=
  (user_creation_conflict_safe {} "Jo@X.com" " Jo " "pw" (fun p => p)
    witFounder "" "" true none).2.1 rfl

def witLoginUser : User :=
  { id := 1, name := "A", email := "a@b.com", passwordHash := "pw",
    role := "founder", active := true }

def witLoginDB : DB := { users := [witLoginUser], next_user_id := 2 }

/-- Counterexample to C10 as stated: the code normalizes the SUBMITTED
email and compares it with the stored one as-is; submitting " A@B.com "
with the right password logs in, yet no user's normalized stored email
equals the submitted string, so the claimed iff fails at this input. -/
theorem login_normalization_counterexample :
    (login " A@B.com " "pw" (fun h p => h == p) witLoginDB).isSome = true ∧
    ¬ specLoginOk " A@B.com " "pw" (fun h p => h == p) witLoginDB :=
  ⟨by decide, by decide⟩

/-- C10 (amended): with pairwise-distinct stored emails, login succeeds iff
some user's stored email equals the normalized (stripped, lower-cased)
submitted email, that user's active flag is true and the stored hash
verifies the submitted password; moreover any user login returns is
active and matching — in particular a deactivated user can never
authenticate. -/
theorem login_semantics (email password : String)
    (verify : String → String → Bool) (db : DB)
    (huniq : (db.users.map (fun u => u.email)).Nodup) :
    ((login email password verify db).isSome = true ↔
      ∃ u ∈ db.users, u.email = pyLower (pyStrip email) ∧ u.active = true ∧
        verify u.passwordHash password = true) ∧
    (∀ u, login email password verify db = some u →
      u ∈ db.users ∧ u.active = true ∧ u.email = pyLower (pyStrip email) ∧
      verify u.passwordHash password = true) := by
  cases hf : db.users.find? (fun u =>
      u.email == pyLower (pyStrip email) && u.active) with
  | none =>
    have hnone : ∀ u ∈ db.users,
        ¬ (u.email == pyLower (pyStrip email) && u.active) = true :=
      List.find?_eq_none.mp hf
    constructor
    · constructor
      · intro h
        exact absurd (show (login email password verify db).isSome = false by
          simp only [login, hf, Option.isSome_none]) (by rw [h]; decide)
      · rintro ⟨u, hu, he, ha, hv⟩
        exact absurd (show (u.email == pyLower (pyStrip email) && u.active) = true by
          rw [beq_iff_eq.mpr he, ha, Bool.and_self]) (hnone u hu)
    · intro u h
      rw [show login email password verify db = none by
        simp only [login, hf]] at h
      exact absurd h (by simp)
  | some u0 =>
    have hmem : u0 ∈ db.users := List.mem_of_find?_eq_some hf
    have hprop := List.find?_some hf
    rw [Bool.and_eq_true] at hprop
    have he0 : u0.email = pyLower (pyStrip email) := beq_iff_eq.mp hprop.1
    have ha0 : u0.active = true := hprop.2
    have hlog : login email password verify db
        = if verify u0.passwordHash password then some u0 else none := by
      simp only [login, hf]
    constructor
    · constructor
      · intro h
        by_cases hv : verify u0.passwordHash password = true
        · exact ⟨u0, hmem, he0, ha0, hv⟩
        · rw [hlog, if_neg hv] at h
          exact absurd h (by decide)
      · rintro ⟨u, hu, he, ha, hv⟩
        have : u = u0 := List.inj_on_of_nodup_map huniq hu hmem (by rw [he, he0])
        rw [hlog, if_pos (by rw [← this]; exact hv)]
        rfl
    · intro u h
      by_cases hv : verify u0.passwordHash password = true
      · rw [hlog, if_pos hv] at h
        cases h
        exact ⟨hmem, ha0, he0, hv⟩
      · rw [hlog, if_neg hv] at h
        exact absurd h (by simp)

/-- Witness for C10 on a concrete single-user store. -/
theorem login_semantics_witness :
    (login "a@b.com" "pw" (fun h p => h == p) witLoginDB).isSome = true := by
  have h := (login_semantics "a@b.com" "pw" (fun h p => h == p) witLoginDB
    (by decide)).1
  exact h.mpr ⟨witLoginUser, by decide, by decide, rfl, by decide⟩

/-- Closing the unique log with id `log.id` removes exactly one open log
from `log`'s card and leaves every other card's open-log count alone. -/
theorem countP_close_map (x now : Nat) (log : SdCardLog) :
    ∀ (logs : List SdCardLog),
      (logs.map (fun l => l.id)).Nodup →
      logs.find? (fun l => l.id == log.id) = some log →
      log.returned_at = none →
      (logs.map (fun l =>
          if l.id == log.id then { l with returned_at := some now } else l)).countP
          (fun l => l.sd_card_id == x && l.returned_at == none)
        = logs.countP (fun l => l.sd_card_id == x && l.returned_at == none)
          - (if log.sd_card_id = x then 1 else 0)
  | [], _, hfind, _ => by simp at hfind
  | h :: t, hnd, hfind, hopen => by
    rw [List.map_cons, List.nodup_cons] at hnd
    cases hph : (h.id == log.id) with
    | true =>
      rw [List.find?_cons_of_pos t hph] at hfind
      have hh : h = log := by injection hfind
      have hmapt : t.map (fun l =>
          if l.id == log.id then { l with returned_at := some now } else l) = t := by
        refine list_map_eq_self _ t (fun l hl => ?_)
        have hne : (l.id == log.id) = false := by
          refine beq_eq_false_iff_ne.mpr (fun he => hnd.1 ?_)
          rw [show h.id = log.id from beq_iff_eq.mp hph, ← he]
          exact List.mem_map_of_mem (fun l => l.id) hl
        rw [hne]
        rfl
      rw [List.map_cons, hmapt, List.countP_cons, List.countP_cons, hh, hopen]
      simp only [beq_self_eq_true, if_true]
      simp only [show ((some now : Option Nat) == none) = false from rfl,
        show ((none : Option Nat) == none) = true from rfl,
        Bool.and_false, Bool.and_true]
      by_cases hx : log.sd_card_id = x
      · simp [hx]
      · simp [beq_eq_false_iff_ne.mpr hx, hx]
    | false =>
      have hfind2 : t.find? (fun l => l.id == log.id) = some log := by
        rwa [List.find?_cons_of_neg t (by rw [hph]; exact Bool.false_ne_true)] at hfind
      have ih := countP_close_map x now log t hnd.2 hfind2 hopen
      have hmem : log ∈ t := List.mem_of_find?_eq_some hfind2
      rw [List.map_cons, List.countP_cons, List.countP_cons]
      simp only [hph, Bool.false_eq_true, if_false]
      rw [ih]
      by_cases hx : log.sd_card_id = x
      · have hpos : 0 < t.countP (fun l => l.sd_card_id == x && l.returned_at == none) :=
          List.countP_pos_iff.mpr ⟨log, hmem, by rw [hopen, beq_iff_eq.mpr hx]; rfl⟩
        rw [if_pos hx] at ih ⊢
        by_cases hph2 : (h.sd_card_id == x && h.returned_at == none) = true
        · rw [hph2]
          omega
        · rw [(Bool.not_eq_true _).mp hph2]
          omega
      · rw [if_neg hx]
        omega

/-- The inductive invariant implies the spec's stated iff. -/
theorem strong_implies_iff (db : DB) (h : strongInvariant db) : iffInvariant db := by
  intro c hc
  have hcount := h c hc
  constructor
  · intro hs
    rw [hcount, if_pos hs]
  · intro h1
    by_contra hs
    rw [if_neg hs] at hcount
    omega

theorem checkout_preserves (a : Nat) (cid eid sid : Option Nat) (purpose : String)
    (now : Nat) (db : DB) (hwf : logsWF db) (hinv : strongInvariant db) :
    strongInvariant (checkoutAction a cid eid sid purpose now db).2 ∧
    logsWF (checkoutAction a cid eid sid purpose now db).2 := by
  cases cid with
  | none => exact ⟨hinv, hwf⟩
  | some i =>
    cases hf : db.sd_cards.find? (fun c => c.id == i) with
    | none =>
      rw [show checkoutAction a (some i) eid sid purpose now db
          = (.redirect (some (.danger "Card not available")), db) from by
        simp only [checkoutAction, Option.some_bind, hf]]
      exact ⟨hinv, hwf⟩
    | some card =>
      cases hs : (card.status == "available") with
      | false =>
        rw [show checkoutAction a (some i) eid sid purpose now db
            = (.redirect (some (.danger "Card not available")), db) from by
          simp only [checkoutAction, Option.some_bind, hf, hs, Bool.false_eq_true,
            if_false]]
        exact ⟨hinv, hwf⟩
      | true =>
        have h2 : (checkoutAction a (some i) eid sid purpose now db).2.sd_card_logs
            = db.sd_card_logs ++
              [{ id := db.next_log_id, sd_card_id := card.id, user_id := a,
                 event_id := eid, session_id := sid, purpose := purpose,
                 checked_out_at := now, returned_at := none }] := by
          simp only [checkoutAction, Option.some_bind, hf, hs, if_true]
        have h3 : (checkoutAction a (some i) eid sid purpose now db).2.sd_cards
            = db.sd_cards.map (fun c =>
                if c.id == card.id then { c with status := "checked_out" } else c) := by
          simp only [checkoutAction, Option.some_bind, hf, hs, if_true]
        have h4 : (checkoutAction a (some i) eid sid purpose now db).2.next_log_id
            = db.next_log_id + 1 := by
          simp only [checkoutAction, Option.some_bind, hf, hs, if_true]
        have hcard : card ∈ db.sd_cards := List.mem_of_find?_eq_some hf
        have hav : card.status = "available" := beq_iff_eq.mp hs
        have hcount0 : openLogCount db card.id = 0 := by
          have h := hinv card hcard
          rw [hav, if_neg (by decide)] at h
          exact h
        have hcy : ∀ y, openLogCount (checkoutAction a (some i) eid sid purpose now db).2 y
            = openLogCount db y + (if card.id == y then 1 else 0) := by
          intro y
          show ((checkoutAction a (some i) eid sid purpose now db).2.sd_card_logs).countP _
            = _
          rw [h2, List.countP_append]
          congr 1
          simp [List.countP_cons]
        constructor
        · intro c' hc'
          rw [h3] at hc'
          obtain ⟨c, hc, rfl⟩ := List.mem_map.mp hc'
          cases cb : (c.id == card.id) with
          | true =>
            simp only [cb, if_true]
            rw [hcy]
            have hceq : c.id = card.id := beq_iff_eq.mp cb
            rw [hceq, hcount0, if_pos (beq_self_eq_true card.id)]
          | false =>
            simp only [cb, Bool.false_eq_true, if_false]
            rw [hcy]
            have hne : (card.id == c.id) = false :=
              beq_eq_false_iff_ne.mpr (fun he => by
                rw [he] at cb
                rw [beq_self_eq_true] at cb
                exact Bool.noConfusion cb)
            rw [hne, if_neg Bool.false_ne_true]
            rw [Nat.add_zero]
            exact hinv c hc
        · constructor
          · show (((checkoutAction a (some i) eid sid purpose now db).2.sd_card_logs).map
              (fun l => l.id)).Nodup
            rw [h2, List.map_append, List.nodup_append]
            refine ⟨hwf.1, List.nodup_singleton _, ?_⟩
            intro y hy hy2
            simp only [List.map_cons, List.map_nil, List.mem_singleton] at hy2
            obtain ⟨l0, hl0, rfl⟩ := List.mem_map.mp hy
            have := hwf.2 l0 hl0
            rw [hy2] at this
            exact absurd this (Nat.lt_irrefl _)
          · intro l hl
            rw [h2] at hl
            rw [h4]
            rcases List.mem_append.mp hl with h | h
            · exact Nat.lt_succ_of_lt (hwf.2 l h)
            · rw [List.mem_singleton] at h
              rw [h]
              exact Nat.lt_succ_self _

theorem return_preserves (lid : Option Nat) (now : Nat) (db : DB)
    (hwf : logsWF db) (hinv : strongInvariant db) :
    strongInvariant (returnAction lid now db).2 ∧
    logsWF (returnAction lid now db).2 := by
  cases lid with
  | none => exact ⟨hinv, hwf⟩
  | some i =>
    cases hf : db.sd_card_logs.find? (fun l => l.id == i) with
    | none =>
      rw [show returnAction (some i) now db
          = (.redirect (some (.danger "Could not return card")), db) from by
        simp only [returnAction, Option.some_bind, hf]]
      exact ⟨hinv, hwf⟩
    | some log =>
      cases hr : (log.returned_at == none) with
      | false =>
        rw [show returnAction (some i) now db
            = (.redirect (some (.danger "Could not return card")), db) from by
          simp only [returnAction, Option.some_bind, hf, hr, Bool.false_eq_true,
            if_false]]
        exact ⟨hinv, hwf⟩
      | true =>
        have hopen : log.returned_at = none := beq_iff_eq.mp hr
        have hli : log.id = i := beq_iff_eq.mp
          (@List.find?_some SdCardLog (fun l => l.id == i) log db.sd_card_logs hf)
        have hfind2 : db.sd_card_logs.find? (fun l => l.id == log.id) = some log := by
          rw [hli]
          exact hf
        have h2 : (returnAction (some i) now db).2.sd_card_logs
            = db.sd_card_logs.map (fun l =>
                if l.id == log.id then { l with returned_at := some now } else l) := by
          simp only [returnAction, Option.some_bind, hf, hr, if_true]
        have h3 : (returnAction (some i) now db).2.sd_cards
            = db.sd_cards.map (fun c =>
                if c.id == log.sd_card_id then { c with status := "available" } else c) := by
          simp only [returnAction, Option.some_bind, hf, hr, if_true]
        have h4 : (returnAction (some i) now db).2.next_log_id = db.next_log_id := by
          simp only [returnAction, Option.some_bind, hf, hr, if_true]
        have hcy : ∀ y, openLogCount (returnAction (some i) now db).2 y
            = openLogCount db y - (if log.sd_card_id = y then 1 else 0) := by
          intro y
          show ((returnAction (some i) now db).2.sd_card_logs).countP _ = _
          rw [h2]
          exact countP_close_map y now log db.sd_card_logs hwf.1 hfind2 hopen
        constructor
        · intro c' hc'
          rw [h3] at hc'
          obtain ⟨c, hc, rfl⟩ := List.mem_map.mp hc'
          cases cb : (c.id == log.sd_card_id) with
          | true =>
            have hceq : c.id = log.sd_card_id := beq_iff_eq.mp cb
            have hinvc := hinv c hc
            have hpos : 0 < openLogCount db c.id := by
              refine List.countP_pos_iff.mpr
                ⟨log, List.mem_of_find?_eq_some hf, ?_⟩
              rw [hopen, hceq, beq_self_eq_true]
              rfl
            have hone : openLogCount db c.id = 1 := by
              by_cases hcs : c.status = "checked_out"
              · rw [if_pos hcs] at hinvc
                exact hinvc
              · rw [if_neg hcs] at hinvc
                omega
            simp only [cb, if_true]
            rw [hcy, ← hceq, hone, if_pos rfl, if_neg (by decide)]
          | false =>
            simp only [cb, Bool.false_eq_true, if_false]
            rw [hcy]
            have hne : ¬ (log.sd_card_id = c.id) := fun he => by
              rw [← he] at cb
              rw [beq_self_eq_true] at cb
              exact Bool.noConfusion cb
            rw [if_neg hne, Nat.sub_zero]
            exact hinv c hc
        · constructor
          · show (((returnAction (some i) now db).2.sd_card_logs).map
              (fun l => l.id)).Nodup
            rw [h2, List.map_map]
            rw [show ((fun l : SdCardLog => l.id) ∘ (fun l =>
                if l.id == log.id then { l with returned_at := some now } else l))
                = (fun l : SdCardLog => l.id) from funext fun l => by
              by_cases hb : (l.id == log.id) = true
              · simp only [Function.comp_apply, hb, if_true]
              · simp only [Function.comp_apply, hb, Bool.false_eq_true, if_false]]
            exact hwf.1
          · intro l hl
            rw [h2] at hl
            rw [h4]
            obtain ⟨l0, hl0, rfl⟩ := List.mem_map.mp hl
            by_cases hb : (l0.id == log.id) = true
            · simp only [hb, if_true]
              exact hwf.2 l0 hl0
            · simp only [hb, Bool.false_eq_true, if_false]
              exact hwf.2 l0 hl0

def cexDB : DB :=
  { sd_cards := [{ id := 1, label := "SD-1", capacity_gb := none,
                   status := "available" }],
    sd_card_logs :=
      [{ id := 1, sd_card_id := 1, user_id := 7, event_id := none,
         session_id := none, purpose := "", checked_out_at := 0,
         returned_at := none },
       { id := 2, sd_card_id := 1, user_id := 7, event_id := none,
         session_id := none, purpose := "", checked_out_at := 0,
         returned_at := none }],
    next_sd_card_id := 2, next_log_id := 3 }

/-- Counterexample to C1 as stated: the iff alone is not inductive.  In
`cexDB` the one card is `available` with two open logs, so the stated iff
holds for every card (a count of 2 is not 1); a checkout against it
succeeds and leaves the card `checked_out` with three open logs, so the
iff fails after the operation. -/
theorem sdcard_iff_invariant_counterexample :
    iffInvariant cexDB ∧
    ¬ iffInvariant (applyOps [CardOp.checkout 7 (some 1) none none "" 5] cexDB) :=
  ⟨by decide, by decide⟩

/-- C1 (amended): strengthening the assumed invariant to the inductive
one — every card's open-log count is 1 when its status is `checked_out`
and 0 otherwise, with primary-key integrity of the log table — any
sequence of checkout and return operations preserves it, and in every
reached state the spec's stated iff (status = checked_out ⇔ exactly one
open log) holds for every card. -/
theorem sdcard_custody_invariant (db : DB) (hwf : logsWF db)
    (hinv : strongInvariant db) (ops : List CardOp) :
    strongInvariant (applyOps ops db) ∧ logsWF (applyOps ops db) ∧
    iffInvariant (applyOps ops db) := by
  induction ops generalizing db with
  | nil => exact ⟨hinv, hwf, strong_implies_iff db hinv⟩
  | cons op rest ih =>
    have hstep : strongInvariant (applyOp op db) ∧ logsWF (applyOp op db) := by
      cases op with
      | checkout a c e s p n => exact checkout_preserves a c e s p n db hwf hinv
      | ret l n => exact return_preserves l n db hwf hinv
    have hfold : applyOps (op :: rest) db = applyOps rest (applyOp op db) := rfl
    rw [hfold]
    exact ih (applyOp op db) hstep.2 hstep.1

def witAvailDB : DB :=
  { sd_cards := [{ id := 1, label := "SD-1", capacity_gb := none,
                   status := "available" }],
    next_sd_card_id := 2 }

/-- Witness for C1: a checkout followed by the matching return, starting
from a well-formed store with one available card. -/
theorem sdcard_custody_invariant_witness :
    iffInvariant (applyOps [CardOp.checkout 7 (some 1) none none "" 5,
      CardOp.ret (some 1) 9] witAvailDB) :=
  (sdcard_custody_invariant witAvailDB (by decide) (by decide)
    [CardOp.checkout 7 (some 1) none none "" 5, CardOp.ret (some 1) 9]).2.2

end Ascend
